import Mathlib

/-!
Verification of the credential/session lifecycle core of the GoTo API
gateway (FastAPI application in app.py, with auth_manager.py).  The
Python functions are shallowly embedded as executable Lean definitions:
the Redis-backed credential store becomes an association list, wall-clock
time becomes an explicit `Clock` record, timestamp strings become the
`TsString` type capturing the naive datetime value and the timezone
suffix, and the upstream OAuth HTTP exchange becomes an explicit
`HttpResponse` parameter.  Exceptions raised as FastAPI HTTPExceptions
become `Except HTTPError` results.
-/

set_option autoImplicit false

namespace GotoGateway

/-- Model of a timestamp string as stored in the credential records.
`stamp n hasZ` is a well-formed ISO-8601 string whose naive datetime
value corresponds to `n` seconds, carrying a trailing Z exactly when
`hasZ`; `malformed raw` is any string rejected by
`datetime.fromisoformat`. -/
inductive TsString where
  | stamp (naive : Int) (hasZ : Bool)
  | malformed (raw : String)
deriving DecidableEq, Repr

/-- Python truthiness of a timestamp string: only the empty string is
falsy (a well-formed stamp is never empty). -/
def TsString.truthy : TsString → Bool
  | .stamp _ _ => true
  | .malformed raw => !raw.isEmpty

/-- Result of `datetime.fromisoformat(s.replace('Z', '+00:00'))` on the
string modelled by a `TsString`: the naive datetime value together with
whether the result is timezone-aware (it is, exactly when the stored
string had the Z suffix).  `none` models the raised `ValueError`. -/
def TsString.parseIso : TsString → Option (Int × Bool)
  | .stamp n hasZ => some (n, hasZ)
  | .malformed _ => none

/-- UTC instant denoted by a timestamp string, when it determines one:
a Z-suffixed ISO-8601 string denotes the UTC instant equal to its naive
datetime value. -/
def TsString.utcInstant : TsString → Option Int
  | .stamp n true => some n
  | .stamp _ false => none
  | .malformed _ => none

/-- Wall clocks of the machine running the gateway: `nowUtc` is the
current UTC instant in seconds and `tzOffset` the offset of the local
timezone, so that `datetime.now()` reads `nowUtc + tzOffset`. -/
structure Clock where
  nowUtc : Int
  tzOffset : Int
deriving DecidableEq, Repr

/-- Naive local wall-clock reading returned by `datetime.now()`. -/
def Clock.nowLocal (c : Clock) : Int := c.nowUtc + c.tzOffset

/-- Value of `datetime.now(tz)` used in the expiry comparison of
`get_goto_token`: for an aware (Z-suffixed) stored expiry the comparison
uses the UTC instant, for a naive one the naive local reading. -/
def Clock.nowForCompare (c : Clock) (hasZ : Bool) : Int :=
  if hasZ then c.nowUtc else c.nowLocal

/-- Python truthiness of an optional string field of a Redis hash:
absent or empty is falsy. -/
def truthy : Option String → Bool
  | none => false
  | some s => !s.isEmpty

/-- ProviderCredential record, one per (tenant_id, provider): the fields
of the Redis hash read and written by app.py.  `none` models an absent
key; `extra` carries any remaining fields of the hash. -/
structure ProviderData where
  status : Option String
  auth_type : Option String
  client_id : Option String
  client_secret : Option String
  access_token : Option String
  refresh_token : Option String
  token_expiry : Option TsString
  account_key : Option String
  api_base_url : Option String
  features_enabled : Option String
  created_at : Option TsString
  updated_at : Option TsString
  extra : List (String × String)
deriving DecidableEq, Repr

/-- FastAPI HTTPException with its status code and detail message. -/
structure HTTPError where
  status : Nat
  detail : String
deriving DecidableEq, Repr

/-- Credential store keyed by (tenant_id, provider), the view of Redis
that `provider_manager` exposes. -/
abbrev Store := List ((String × String) × ProviderData)

/-- Modelled from the spec: `ProviderManager.get_provider`
(provider_manager.py is not under src/); a pure keyed lookup in the
external store, absent keys yielding `None`. -/
def Store.getP : Store → String → String → Option ProviderData
  | [], _, _ => none
  | kv :: rest, t, p => if kv.1 = (t, p) then some kv.2 else Store.getP rest t p

/-- Modelled from the spec: `ProviderManager.update_tokens`
(provider_manager.py is not under src/); a partial update that writes
access_token, refresh_token and token_expiry, preserves every other
field, and bumps updated_at (the bump value, internal to
provider_manager, is passed as the naive local time `now`). -/
def Store.update_tokens (s : Store) (t p : String) (newAccess newRefresh : String)
    (expiry : TsString) (now : Int) : Store :=
  match s with
  | [] => []
  | kv :: rest =>
    (if kv.1 = (t, p) then
      (kv.1, { kv.2 with
                access_token := some newAccess
                refresh_token := some newRefresh
                token_expiry := some expiry
                updated_at := some (.stamp now false) })
    else kv) :: Store.update_tokens rest t p newAccess newRefresh expiry now

/-- JSON body of a token-endpoint response, as read by
`refresh_goto_token`: each field may be absent. -/
structure TokenJson where
  access_token : Option String
  refresh_token : Option String
  expires_in : Option Int
deriving DecidableEq, Repr

/-- Response of the `requests.post` to the OAuth token endpoint.
`body = none` models a 200 whose `response.json()` raises. -/
structure HttpResponse where
  status_code : Nat
  body : Option TokenJson
  text : String
deriving DecidableEq, Repr

/-- Result dict of `refresh_goto_token`: success carries expires_in and
expires_at as returned to the caller, failure carries the error text. -/
inductive RefreshResult where
  | ok (expires_in : Int) (expires_at : TsString)
  | err (msg : String)
deriving DecidableEq, Repr

/-- Truthiness of the `success` field of a refresh result dict. -/
def RefreshResult.isSuccess : RefreshResult → Bool
  | .ok _ _ => true
  | .err _ => false

/-- Embedding of `refresh_goto_token` (app.py lines 111 to 146).  The
upstream POST (issued with no timeout) is represented by `resp`, where
`none` models a raised transport exception; the enclosing
try/except turns missing dict keys and transport errors into failure
results.  Returns the result dict together with the store after the
write-back. -/
def refresh_goto_token (store : Store) (tenant : String) (clock : Clock)
    (resp : Option HttpResponse) : RefreshResult × Store :=
  match Store.getP store tenant "goto" with
  | none => (.err "Provider not found", store)
  | some pd =>
    match pd.refresh_token with
    | none => (.err "KeyError: refresh_token", store)
    | some rt =>
      match pd.client_id with
      | none => (.err "KeyError: client_id", store)
      | some _ =>
        match pd.client_secret with
        | none => (.err "KeyError: client_secret", store)
        | some _ =>
          match resp with
          | none => (.err "requests exception", store)
          | some r =>
            if r.status_code = 200 then
              match r.body with
              | none => (.err "response.json raised", store)
              | some j =>
                match j.access_token with
                | none => (.err "KeyError: access_token", store)
                | some newAccess =>
                  let newRefresh := j.refresh_token.getD rt
                  let expiresIn := j.expires_in.getD 3600
                  let expiresAt : TsString := .stamp (clock.nowLocal + expiresIn) true
                  (.ok expiresIn expiresAt,
                   Store.update_tokens store tenant "goto" newAccess newRefresh
                     expiresAt clock.nowLocal)
            else
              (.err r.text, store)

/-- Embedding of `get_provider_credentials` (app.py lines 73 to 81):
absent record yields 404, record whose status is not the string
active yields 403. -/
def get_provider_credentials (store : Store) (tenant provider : String) :
    Except HTTPError ProviderData :=
  match Store.getP store tenant provider with
  | none =>
    .error ⟨404, "Provider " ++ provider ++ " not found for tenant " ++ tenant⟩
  | some pd =>
    if pd.status = some "active" then .ok pd
    else .error ⟨403, "Provider " ++ provider ++ " is not active"⟩

instance exceptDecEq {ε α : Type} [DecidableEq ε] [DecidableEq α] :
    DecidableEq (Except ε α) := fun a b =>
  match a, b with
  | .ok x, .ok y =>
    if h : x = y then isTrue (by rw [h]) else
      isFalse (by intro hc; cases hc; exact h rfl)
  | .error x, .error y =>
    if h : x = y then isTrue (by rw [h]) else
      isFalse (by intro hc; cases hc; exact h rfl)
  | .ok _, .error _ => isFalse (by intro hc; cases hc)
  | .error _, .ok _ => isFalse (by intro hc; cases hc)

/-- Outcome of a call to `get_goto_token`: the returned token or raised
HTTPException, the store after any refresh write-back, and the number of
refresh calls performed. -/
structure GotoOutcome where
  result : Except HTTPError (Option String)
  store : Store
  refreshCalls : Nat
deriving DecidableEq, Repr

/-- Embedding of `get_goto_token` (app.py lines 84 to 108).  The body of
the expiry check runs inside `try ... except Exception`, so any
exception raised there — including the `HTTPException(401)` raised when
the refresh fails and any HTTPException from the re-read — is caught,
logged as a warning, and the previously read token is returned. -/
def get_goto_token (store : Store) (tenant : String) (clock : Clock)
    (resp : Option HttpResponse) : GotoOutcome :=
  match get_provider_credentials store tenant "goto" with
  | .error e => ⟨.error e, store, 0⟩
  | .ok pd =>
    let token := pd.access_token
    if !truthy token then
      ⟨.error ⟨401, "No GoTo access token available"⟩, store, 0⟩
    else
      match pd.token_expiry with
      | none => ⟨.ok token, store, 0⟩
      | some ts =>
        if ts.truthy then
          match ts.parseIso with
          | none => ⟨.ok token, store, 0⟩
          | some (naive, hasZ) =>
            if clock.nowForCompare hasZ ≥ naive then
              let rs := refresh_goto_token store tenant clock resp
              if rs.1.isSuccess then
                match get_provider_credentials rs.2 tenant "goto" with
                | .ok pd2 => ⟨.ok pd2.access_token, rs.2, 1⟩
                | .error _ => ⟨.ok token, rs.2, 1⟩
              else
                ⟨.ok token, rs.2, 1⟩
            else
              ⟨.ok token, store, 0⟩
        else
          ⟨.ok token, store, 0⟩

/-- One upstream HTTP call issued by the gateway, transcribed from the
`requests` call sites of app.py and auth_manager.py: the function
containing the call, the target endpoint, and the `timeout` argument
(in seconds) when one is passed.  The `requests` library blocks without
bound when no timeout is passed. -/
structure UpstreamCall where
  site : String
  url : String
  timeout : Option Nat
deriving DecidableEq, Repr

/-- URL of the provider OAuth token endpoint. -/
def tokenEndpointUrl : String := "identity.goto.com/oauth/token"

/-- URL class of the Voice Admin API. -/
def voiceBaseUrl : String := "api.jive.com/voice-admin/v1"

/-- URL class of the Admin API. -/
def adminBaseUrl : String := "api.getgo.com/admin/rest/v1"

/-- URL class of the SCIM API. -/
def scimBaseUrl : String := "api.getgo.com/identity/v1"

/-- Every `requests` call of app.py and auth_manager.py with its
`timeout` argument, transcribed from the source (line numbers of each
call site are given with each entry). -/
def upstreamCalls : List UpstreamCall := [
  ⟨"app.refresh_goto_token", tokenEndpointUrl, none⟩,            -- app.py:129
  ⟨"app.exchange_code_for_token", tokenEndpointUrl, none⟩,       -- app.py:169
  ⟨"app.list_call_queues", voiceBaseUrl, some 30⟩,               -- app.py:885
  ⟨"app.get_me", adminBaseUrl, some 30⟩,                         -- app.py:908
  ⟨"app.list_auto_attendants", voiceBaseUrl, some 30⟩,           -- app.py:935
  ⟨"app.get_auto_attendant", voiceBaseUrl, some 30⟩,             -- app.py:959
  ⟨"app.create_auto_attendant", voiceBaseUrl, some 60⟩,          -- app.py:990
  ⟨"app.update_auto_attendant", voiceBaseUrl, some 60⟩,          -- app.py:1019
  ⟨"app.delete_auto_attendant", voiceBaseUrl, some 30⟩,          -- app.py:1043
  ⟨"app.admin_proxy", adminBaseUrl, some 60⟩,                    -- app.py:1080
  ⟨"app.voice_proxy", voiceBaseUrl, some 60⟩,                    -- app.py:1127
  ⟨"app.scim_proxy", scimBaseUrl, some 60⟩,                      -- app.py:1160
  ⟨"auth_manager.exchange_code_for_token", tokenEndpointUrl, none⟩, -- auth_manager.py:113
  ⟨"auth_manager.refresh_token", tokenEndpointUrl, none⟩]        -- auth_manager.py:197

/-- Whether a call carries a bounded timeout in the 30 to 60 second
class. -/
def UpstreamCall.hasBoundedTimeout (c : UpstreamCall) : Bool :=
  match c.timeout with
  | some t => decide (30 ≤ t) && decide (t ≤ 60)
  | none => false

/-- SystemCredential record, one per (tenant_id, app_id). -/
structure SystemCreds where
  client_id : Option String
  client_secret : Option String
  redirect_uri : Option String
  auth_url : Option String
  token_url : Option String
deriving DecidableEq, Repr

/-- System-credential store keyed by (tenant_id, app_id). -/
abbrev SysStore := List ((String × String) × SystemCreds)

/-- Modelled from the spec: `ProviderManager.get_system_credentials`
(provider_manager.py is not under src/); a pure keyed lookup. -/
def SysStore.getSys : SysStore → String → String → Option SystemCreds
  | [], _, _ => none
  | kv :: rest, t, a => if kv.1 = (t, a) then some kv.2 else SysStore.getSys rest t a

/-- Provider-token snapshot bundled into a session by `auth_connect`
(app.py lines 528 to 534); `api_base_url` defaults to the Voice base
URL when the stored record has no such field. -/
structure ProviderTokens where
  access_token : Option String
  refresh_token : Option String
  token_expiry : Option TsString
  account_key : Option String
  api_base_url : String
deriving DecidableEq, Repr

/-- Session record as persisted by the Session Manager: the snapshot of
both credential blobs with the lifecycle timestamps, expires_at being
created_at plus the fixed 300 second TTL. -/
structure SessionRecord where
  session_id : String
  tenant : String
  app : String
  system_creds : SystemCreds
  provider_tokens : ProviderTokens
  created_at : Int
  expires_at : Int
deriving DecidableEq, Repr

/-- Session store keyed by session_id. -/
abbrev SessionStore := List (String × SessionRecord)

/-- First record stored under a session id, if any. -/
def SessionStore.lookup : SessionStore → String → Option SessionRecord
  | [], _ => none
  | kv :: rest, sid => if kv.1 = sid then some kv.2 else SessionStore.lookup rest sid

/-- Removal of every record stored under a session id. -/
def SessionStore.remove : SessionStore → String → SessionStore
  | [], _ => []
  | kv :: rest, sid =>
    if kv.1 = sid then SessionStore.remove rest sid
    else kv :: SessionStore.remove rest sid

/-- Modelled from the spec: `SessionManager.create_session`
(session_manager.py is not under src/); generates a fresh session id
(passed here as `freshId`), stamps created_at with the current time and
expires_at 300 seconds later, stores the full snapshot of both
credential blobs, and returns the full record. -/
def create_session (ss : SessionStore) (freshId : String) (now : Int)
    (tenant app : String) (sc : SystemCreds) (pt : ProviderTokens) :
    SessionRecord × SessionStore :=
  let r : SessionRecord := ⟨freshId, tenant, app, sc, pt, now, now + 300⟩
  (r, (freshId, r) :: ss)

/-- Modelled from the spec: `SessionManager.delete_session`
(session_manager.py is not under src/); removes the record and returns
whether one existed, a second delete on the same id returning false
rather than failing. -/
def delete_session (ss : SessionStore) (sid : String) : Bool × SessionStore :=
  match SessionStore.lookup ss sid with
  | some _ => (true, SessionStore.remove ss sid)
  | none => (false, ss)

/-- Data of a successful connect response (app.py lines 545 to 554). -/
structure ConnectData where
  session_id : String
  tenant : String
  app : String
  expires_in : Nat
deriving DecidableEq, Repr

/-- Embedding of the `auth_connect` handler (app.py lines 504 to 559):
absent system credentials or absent goto provider record yield 404
before any session is created; otherwise the provider-token snapshot is
built and a session stored.  The fresh session id and the current time,
produced inside the session manager, are passed as parameters. -/
def auth_connect (sys : SysStore) (store : Store) (ss : SessionStore)
    (freshId : String) (now : Int) (tenant app : String) :
    Except HTTPError ConnectData × SessionStore :=
  match SysStore.getSys sys tenant app with
  | none =>
    (.error ⟨404, "System credentials not found for tenant=" ++ tenant ++ " app=" ++ app⟩, ss)
  | some sc =>
    match Store.getP store tenant "goto" with
    | none =>
      (.error ⟨404, "Provider goto not found for tenant=" ++ tenant⟩, ss)
    | some pd =>
      let pt : ProviderTokens :=
        ⟨pd.access_token, pd.refresh_token, pd.token_expiry, pd.account_key,
         pd.api_base_url.getD voiceBaseUrl⟩
      let cs := create_session ss freshId now tenant app sc pt
      (.ok ⟨cs.1.session_id, tenant, app, 300⟩, cs.2)

/-- Embedding of the `auth_disconnect` handler (app.py lines 573 to
600): a successful delete returns the success message with HTTP 200, a
delete of an unknown id surfaces as HTTPException 404. -/
def auth_disconnect (ss : SessionStore) (sid : String) :
    Except HTTPError String × SessionStore :=
  let d := delete_session ss sid
  if d.1 then
    (.ok "Session disconnected successfully", d.2)
  else
    (.error ⟨404, "Session not found: " ++ sid⟩, d.2)

/-- Scrubbing performed by `get_tenant_provider` before responding
(app.py lines 1204 to 1206): the client_secret, access_token and
refresh_token entries are popped from the record. -/
def scrubSecrets (pd : ProviderData) : ProviderData :=
  { pd with client_secret := none, access_token := none, refresh_token := none }

/-- Body of a successful response of GET
/tenants/tenant_id/providers/provider. -/
structure TenantProviderResponse where
  tenant_id : String
  provider : String
  config : ProviderData
deriving DecidableEq, Repr

/-- Embedding of the `get_tenant_provider` handler (app.py lines 1197
to 1212): absent record yields 404, otherwise the record is returned
with the three secret fields popped. -/
def get_tenant_provider (store : Store) (tenant provider : String) :
    Except HTTPError TenantProviderResponse :=
  match Store.getP store tenant provider with
  | none =>
    .error ⟨404, "Provider " ++ provider ++ " not found for tenant " ++ tenant⟩
  | some pd => .ok ⟨tenant, provider, scrubSecrets pd⟩

/-! Concrete fixtures used by the witness and counterexample theorems. -/

/-- Active goto credential with token T1 expired at UTC instant 50. -/
def credT1 : ProviderData :=
  { status := some "active", auth_type := some "oauth",
    client_id := some "cid-1", client_secret := some "sec-1",
    access_token := some "T1", refresh_token := some "R1",
    token_expiry := some (.stamp 50 true), account_key := some "AK",
    api_base_url := none, features_enabled := none,
    created_at := none, updated_at := none, extra := [] }

/-- Store holding only the expired credential of tenant acme. -/
def store1 : Store := [(("acme", "goto"), credT1)]

/-- Clock at UTC instant 100 in the UTC timezone. -/
def clockPast : Clock := ⟨100, 0⟩

/-- Clock at UTC instant 1000 on a machine five hours behind UTC. -/
def clockWest : Clock := ⟨1000, -18000⟩

/-- Refresh rejection from the provider. -/
def resp400 : HttpResponse := ⟨400, none, "invalid_grant"⟩

/-- Successful token response rotating the access token to T2 without
returning a refresh_token. -/
def jsonT2 : TokenJson := ⟨some "T2", none, some 3600⟩

/-- Successful HTTP 200 carrying `jsonT2`. -/
def resp200 : HttpResponse := ⟨200, some jsonT2, ""⟩

/-- Suspended goto credential. -/
def credSuspended : ProviderData := { credT1 with status := some "suspended" }

/-- Store holding only the suspended credential. -/
def storeSuspended : Store := [(("acme", "goto"), credSuspended)]

/-- Active goto credential holding no access token. -/
def credNoToken : ProviderData := { credT1 with access_token := none }

/-- Store holding only the tokenless credential. -/
def storeNoToken : Store := [(("acme", "goto"), credNoToken)]

/-- Active goto credential whose token_expiry string does not parse. -/
def credMalformed : ProviderData :=
  { credT1 with token_expiry := some (.malformed "not-a-date") }

/-- Store holding only the credential with the malformed expiry. -/
def storeMalformed : Store := [(("acme", "goto"), credMalformed)]

/-- Active goto credential expiring far in the future. -/
def credFuture : ProviderData :=
  { credT1 with token_expiry := some (.stamp 1000000000 true) }

/-- Store holding only the still-valid credential. -/
def storeFuture : Store := [(("acme", "goto"), credFuture)]

/-- System credential fixture. -/
def sysCreds1 : SystemCreds :=
  ⟨some "sys-cid", some "sys-sec", some "http://localhost:9111",
   some "https://identity.goto.com/oauth/authorize",
   some "https://identity.goto.com/oauth/token"⟩

/-- Provider-token snapshot fixture. -/
def provTokens1 : ProviderTokens :=
  ⟨some "T1", some "R1", some (.stamp 50 true), some "AK", voiceBaseUrl⟩

/-- Session store holding exactly one freshly created session sid-1. -/
def ssOne : SessionStore :=
  (create_session [] "sid-1" 0 "acme" "app1" sysCreds1 provTokens1).2

/-- Credential differing from credT1 only in the three secret fields. -/
def credT1other : ProviderData :=
  { credT1 with client_secret := some "sec-other",
                access_token := some "T-other", refresh_token := some "R-other" }

/-- Store holding the secret-variant credential. -/
def store1other : Store := [(("acme", "goto"), credT1other)]

/-! Helper lemmas shared by the claim theorems. -/

theorem getP_update_tokens (s : Store) (t p a r : String) (e : TsString) (n : Int) :
    Store.getP (Store.update_tokens s t p a r e n) t p =
      (Store.getP s t p).map fun pd =>
        { pd with access_token := some a, refresh_token := some r,
                  token_expiry := some e, updated_at := some (.stamp n false) } := by
  induction s with
  | nil => rfl
  | cons kv rest ih =>
    by_cases h : kv.1 = (t, p)
    · simp only [Store.update_tokens, if_pos h, Store.getP]
      rfl
    · simp only [Store.update_tokens, if_neg h, Store.getP]
      exact ih

theorem lookup_remove (ss : SessionStore) (sid : String) :
    SessionStore.lookup (SessionStore.remove ss sid) sid = none := by
  induction ss with
  | nil => rfl
  | cons kv rest ih =>
    by_cases h : kv.1 = sid
    · simp only [SessionStore.remove, if_pos h]
      exact ih
    · simp only [SessionStore.remove, if_neg h, SessionStore.lookup]
      exact ih


/-! Claim theorems. -/

/-- C1: code behavior at the failing input.  Tenant acme holds a goto
credential with access token T1 and a parseable token_expiry (UTC
instant 50) in the past of the clock (UTC instant 100); the refresh
attempt fails with HTTP 400.  The specification requires the call to
fail RefreshFailed with HTTP-equivalent 401, but `get_goto_token`
returns the stale expired token T1: the `raise HTTPException(401)` on
the refresh-failure branch is swallowed by the enclosing
`except Exception` of the expiry check (one refresh call is made, the
store is unchanged). -/
theorem c1_refresh_failure_returns_stale_token :
    get_goto_token store1 "acme" clockPast (some resp400) =
      ⟨Except.ok (some "T1"), store1, 1⟩ := by
  rfl

/-- C2, counterexample: the claim that every upstream HTTP call carries
a bounded timeout in the 30 to 60 second class is false — the POST to
the OAuth token endpoint made by `refresh_goto_token` (app.py line 129)
passes no timeout argument, so not every transcribed call satisfies the
bound. -/
theorem c2_counterexample :
    (⟨"app.refresh_goto_token", tokenEndpointUrl, none⟩ : UpstreamCall) ∈ upstreamCalls ∧
    UpstreamCall.hasBoundedTimeout ⟨"app.refresh_goto_token", tokenEndpointUrl, none⟩ = false ∧
    upstreamCalls.all UpstreamCall.hasBoundedTimeout = false := by
  refine ⟨?_, rfl, rfl⟩
  simp [upstreamCalls]

/-- C2, amended: every upstream HTTP call other than the POSTs to the
OAuth token endpoint carries a bounded timeout in the 30 to 60 second
class; the token-endpoint POSTs of `refresh_goto_token`,
`exchange_code_for_token` and `GoToAuthManager` pass no timeout at
all. -/
theorem c2_amended_proxy_calls_bounded (c : UpstreamCall)
    (hc : c ∈ upstreamCalls) (h : c.url ≠ tokenEndpointUrl) :
    c.hasBoundedTimeout = true := by
  fin_cases hc <;> first
    | rfl
    | exact absurd rfl h

/-- C2, witness for the amended theorem at the voice proxy call. -/
theorem c2_amended_witness :
    (⟨"app.voice_proxy", voiceBaseUrl, some 60⟩ : UpstreamCall) ∈ upstreamCalls ∧
    UpstreamCall.hasBoundedTimeout ⟨"app.voice_proxy", voiceBaseUrl, some 60⟩ = true := by
  refine ⟨by simp [upstreamCalls], ?_⟩
  exact c2_amended_proxy_calls_bounded ⟨"app.voice_proxy", voiceBaseUrl, some 60⟩
    (by simp [upstreamCalls]) (by simp [voiceBaseUrl, tokenEndpointUrl])

/-- C3, counterexample: the stored expiry is not computed in UTC.  On a
machine five hours behind UTC (`clockWest`, UTC instant 1000, offset
minus 18000), a successful refresh with expires_in 3600 stores a
Z-suffixed stamp denoting UTC instant minus 13400, not the claimed
nowUtc + expires_in = 4600: the code adds expires_in to the naive local
`datetime.now()` and then appends Z. -/
theorem c3_counterexample :
    ((Store.getP (refresh_goto_token store1 "acme" clockWest (some resp200)).2
        "acme" "goto").bind (fun pd => pd.token_expiry)).bind TsString.utcInstant
      = some (-13400) ∧
    clockWest.nowUtc + 3600 = 4600 ∧ ((-13400 : Int) ≠ 4600) := by
  refine ⟨rfl, rfl, by decide⟩

/-- C3, amended: for every successful refresh (HTTP 200 with an
access_token), the Token Refresher computes the stored token_expiry as
the naive local clock reading plus expires_in (equal to UTC now +
expires_in only when the local offset is zero), serialized as ISO-8601
with a Z suffix, and expires_in defaults to 3600 when absent. -/
theorem c3_amended_expiry_local_clock (store : Store) (tenant : String)
    (clock : Clock) (r : HttpResponse) (pd : ProviderData)
    (rt cid cs acc : String) (j : TokenJson)
    (hpd : Store.getP store tenant "goto" = some pd)
    (hrt : pd.refresh_token = some rt) (hcid : pd.client_id = some cid)
    (hcs : pd.client_secret = some cs) (hst : r.status_code = 200)
    (hb : r.body = some j) (hacc : j.access_token = some acc) :
    (refresh_goto_token store tenant clock (some r)).1 =
      RefreshResult.ok (j.expires_in.getD 3600)
        (TsString.stamp (clock.nowLocal + j.expires_in.getD 3600) true) ∧
    (Store.getP (refresh_goto_token store tenant clock (some r)).2 tenant "goto").map
        (fun q => q.token_expiry) =
      some (some (TsString.stamp (clock.nowLocal + j.expires_in.getD 3600) true)) ∧
    (j.expires_in = none → j.expires_in.getD 3600 = 3600) := by
  refine ⟨?_, ?_, fun hn => by rw [hn]; rfl⟩ <;>
    simp [refresh_goto_token, hpd, hrt, hcid, hcs, hst, hb, hacc, getP_update_tokens]

/-- C3, witness for the amended theorem: tenant acme refreshed on the
west-coast clock stores expiry stamp of local now + 3600 with the Z
suffix. -/
theorem c3_amended_witness :
    (refresh_goto_token store1 "acme" clockWest (some resp200)).1 =
      RefreshResult.ok (jsonT2.expires_in.getD 3600)
        (TsString.stamp (clockWest.nowLocal + jsonT2.expires_in.getD 3600) true) ∧
    (Store.getP (refresh_goto_token store1 "acme" clockWest (some resp200)).2
        "acme" "goto").map (fun q => q.token_expiry) =
      some (some (TsString.stamp (clockWest.nowLocal + jsonT2.expires_in.getD 3600) true)) := by
  have h := c3_amended_expiry_local_clock store1 "acme" clockWest resp200 credT1
    "R1" "cid-1" "sec-1" "T2" jsonT2 rfl rfl rfl rfl rfl rfl rfl
  exact ⟨h.1, h.2.1⟩

/-- C4: for every successful refresh whose provider response omits the
refresh_token field, the refresher persists the new access_token while
re-storing the previously held refresh_token unchanged. -/
theorem c4_refresh_token_retained (store : Store) (tenant : String)
    (clock : Clock) (r : HttpResponse) (pd : ProviderData)
    (rt cid cs acc : String) (j : TokenJson)
    (hpd : Store.getP store tenant "goto" = some pd)
    (hrt : pd.refresh_token = some rt) (hcid : pd.client_id = some cid)
    (hcs : pd.client_secret = some cs) (hst : r.status_code = 200)
    (hb : r.body = some j) (hacc : j.access_token = some acc)
    (hnone : j.refresh_token = none) :
    (Store.getP (refresh_goto_token store tenant clock (some r)).2 tenant "goto").map
        (fun q => (q.access_token, q.refresh_token)) = some (some acc, some rt) := by
  simp [refresh_goto_token, hpd, hrt, hcid, hcs, hst, hb, hacc, hnone,
        getP_update_tokens]

/-- C4, witness: refreshing the acme credential with the rotation-free
response T2 leaves refresh_token R1 in the store next to the new access
token T2. -/
theorem c4_witness :
    (Store.getP (refresh_goto_token store1 "acme" clockPast (some resp200)).2
        "acme" "goto").map (fun q => (q.access_token, q.refresh_token)) =
      some (some "T2", some "R1") :=
  c4_refresh_token_retained store1 "acme" clockPast resp200 credT1
    "R1" "cid-1" "sec-1" "T2" jsonT2 rfl rfl rfl rfl rfl rfl rfl rfl

/-- C5: the Token Validity Gate fails 404 when the record is absent,
403 when its status is not active (regardless of any token), and 401
when the active record holds no usable access token, in that order of
precedence. -/
theorem c5_gate_error_order (store : Store) (tenant provider : String)
    (clock : Clock) (resp : Option HttpResponse) :
    (Store.getP store tenant provider = none →
      get_provider_credentials store tenant provider =
        Except.error ⟨404, "Provider " ++ provider ++ " not found for tenant " ++ tenant⟩) ∧
    (∀ pd, Store.getP store tenant provider = some pd → pd.status ≠ some "active" →
      get_provider_credentials store tenant provider =
        Except.error ⟨403, "Provider " ++ provider ++ " is not active"⟩) ∧
    (∀ pd, Store.getP store tenant "goto" = some pd → pd.status = some "active" →
      truthy pd.access_token = false →
      (get_goto_token store tenant clock resp).result =
        Except.error ⟨401, "No GoTo access token available"⟩) := by
  refine ⟨fun h => by simp [get_provider_credentials, h],
          fun pd h hs => by simp [get_provider_credentials, h, hs],
          fun pd h hs ht => by
            simp [get_goto_token, get_provider_credentials, h, hs, ht]⟩

/-- C5, witness: the empty store yields 404, the suspended credential
403, and the active tokenless credential 401. -/
theorem c5_witness :
    get_provider_credentials [] "acme" "goto" =
      Except.error ⟨404, "Provider " ++ "goto" ++ " not found for tenant " ++ "acme"⟩ ∧
    get_provider_credentials storeSuspended "acme" "goto" =
      Except.error ⟨403, "Provider " ++ "goto" ++ " is not active"⟩ ∧
    (get_goto_token storeNoToken "acme" clockPast none).result =
      Except.error ⟨401, "No GoTo access token available"⟩ := by
  refine ⟨(c5_gate_error_order [] "acme" "goto" clockPast none).1 rfl,
          (c5_gate_error_order storeSuspended "acme" "goto" clockPast none).2.1
            credSuspended rfl (by decide),
          (c5_gate_error_order storeNoToken "acme" "goto" clockPast none).2.2
            credNoToken rfl rfl rfl⟩

/-- C6: with an access token present, a missing or unparseable
token_expiry makes `get_goto_token` return the stored token without any
refresh call and without failing (the store is unchanged). -/
theorem c6_missing_or_unparseable_expiry_lenient (store : Store)
    (tenant : String) (clock : Clock) (resp : Option HttpResponse)
    (pd : ProviderData)
    (hpd : Store.getP store tenant "goto" = some pd)
    (hact : pd.status = some "active")
    (htok : truthy pd.access_token = true)
    (hexp : pd.token_expiry = none ∨
            ∃ raw, pd.token_expiry = some (TsString.malformed raw)) :
    get_goto_token store tenant clock resp = ⟨Except.ok pd.access_token, store, 0⟩ := by
  rcases hexp with h | ⟨raw, h⟩
  · simp [get_goto_token, get_provider_credentials, hpd, hact, htok, h]
  · by_cases he : raw.isEmpty = true <;>
      simp [get_goto_token, get_provider_credentials, hpd, hact, htok, h,
            TsString.truthy, TsString.parseIso, he]

/-- C6, witness: the credential whose expiry string is not-a-date is
returned as-is with zero refresh calls. -/
theorem c6_witness :
    get_goto_token storeMalformed "acme" clockPast none =
      ⟨Except.ok (some "T1"), storeMalformed, 0⟩ :=
  c6_missing_or_unparseable_expiry_lenient storeMalformed "acme" clockPast none
    credMalformed rfl rfl rfl (Or.inr ⟨"not-a-date", rfl⟩)

/-- C9: with a stored token_expiry strictly in the future (under the
awareness-matched comparison the code performs), `get_goto_token` is an
idempotent pure read: it returns the stored token, leaves the store
unchanged and makes zero refresh calls, and an immediately repeated
call returns the same token with zero refresh calls again. -/
theorem c9_valid_token_idempotent_read (store : Store) (tenant : String)
    (clock : Clock) (resp : Option HttpResponse) (pd : ProviderData)
    (n : Int) (z : Bool)
    (hpd : Store.getP store tenant "goto" = some pd)
    (hact : pd.status = some "active")
    (htok : truthy pd.access_token = true)
    (hts : pd.token_expiry = some (TsString.stamp n z))
    (hfut : clock.nowForCompare z < n) :
    get_goto_token store tenant clock resp = ⟨Except.ok pd.access_token, store, 0⟩ ∧
    get_goto_token (get_goto_token store tenant clock resp).store tenant clock resp =
      ⟨Except.ok pd.access_token, store, 0⟩ := by
  have h1 : get_goto_token store tenant clock resp =
      ⟨Except.ok pd.access_token, store, 0⟩ := by
    simp [get_goto_token, get_provider_credentials, hpd, hact, htok, hts,
          TsString.truthy, TsString.parseIso, not_le.mpr hfut]
  refine ⟨h1, ?_⟩
  rw [h1]
  exact h1

/-- C9, witness: the still-valid credential of tenant acme is read back
twice with zero refresh calls. -/
theorem c9_witness :
    get_goto_token storeFuture "acme" clockPast none =
      ⟨Except.ok (some "T1"), storeFuture, 0⟩ ∧
    get_goto_token (get_goto_token storeFuture "acme" clockPast none).store
        "acme" clockPast none =
      ⟨Except.ok (some "T1"), storeFuture, 0⟩ :=
  c9_valid_token_idempotent_read storeFuture "acme" clockPast none credFuture
    1000000000 true rfl rfl rfl rfl (by decide)

/-- C7: a connect request for a (tenant, app) pair with no stored
SystemCredential fails with HTTP-equivalent 404 and the session store
is returned unchanged — `create_session` is never reached. -/
theorem c7_connect_missing_syscreds (sys : SysStore) (store : Store)
    (ss : SessionStore) (freshId : String) (now : Int) (tenant app : String)
    (h : SysStore.getSys sys tenant app = none) :
    auth_connect sys store ss freshId now tenant app =
      (Except.error ⟨404, "System credentials not found for tenant=" ++ tenant ++
        " app=" ++ app⟩, ss) := by
  simp [auth_connect, h]

/-- C7, witness: connecting tenant acme app app1 against an empty
system-credential store fails 404 with the empty session store
untouched. -/
theorem c7_witness :
    auth_connect [] store1 [] "sid-1" 0 "acme" "app1" =
      (Except.error ⟨404, "System credentials not found for tenant=" ++ "acme" ++
        " app=" ++ "app1"⟩, []) :=
  c7_connect_missing_syscreds [] store1 [] "sid-1" 0 "acme" "app1" rfl

/-- C8: for a session id present in the store, the first disconnect
succeeds with the HTTP 200 success message and removes the record, and
every disconnect on a store without that id — in particular every
subsequent disconnect, since a failed delete leaves the store unchanged
— surfaces as HTTPException 404 rather than an error. -/
theorem c8_disconnect_idempotent (ss : SessionStore) (sid : String)
    (h : (SessionStore.lookup ss sid).isSome = true) :
    (auth_disconnect ss sid).1 = Except.ok "Session disconnected successfully" ∧
    SessionStore.lookup (auth_disconnect ss sid).2 sid = none ∧
    ∀ ss2 : SessionStore, SessionStore.lookup ss2 sid = none →
      auth_disconnect ss2 sid =
        (Except.error ⟨404, "Session not found: " ++ sid⟩, ss2) := by
  obtain ⟨v, hv⟩ := Option.isSome_iff_exists.mp h
  refine ⟨?_, ?_, ?_⟩
  · simp [auth_disconnect, delete_session, hv]
  · simp [auth_disconnect, delete_session, hv, lookup_remove]
  · intro ss2 h2
    simp [auth_disconnect, delete_session, h2]

/-- C8, witness: the store holding the freshly created session sid-1
disconnects once with success, after which sid-1 is gone and the second
disconnect returns 404 with the store unchanged. -/
theorem c8_witness :
    (SessionStore.lookup ssOne "sid-1").isSome = true ∧
    (auth_disconnect ssOne "sid-1").1 = Except.ok "Session disconnected successfully" ∧
    SessionStore.lookup (auth_disconnect ssOne "sid-1").2 "sid-1" = none ∧
    auth_disconnect (auth_disconnect ssOne "sid-1").2 "sid-1" =
      (Except.error ⟨404, "Session not found: " ++ "sid-1"⟩,
       (auth_disconnect ssOne "sid-1").2) := by
  have h := c8_disconnect_idempotent ssOne "sid-1" rfl
  exact ⟨rfl, h.1, h.2.1, h.2.2 _ h.2.1⟩

/-- C10: the response of GET /tenants/tenant_id/providers/provider
never contains the client_secret, access_token or refresh_token fields,
and two stored records that differ only in those three fields produce
identical responses. -/
theorem c10_provider_response_hides_secrets (s1 s2 : Store)
    (t p : String) (pd1 pd2 : ProviderData)
    (h1 : Store.getP s1 t p = some pd1) (h2 : Store.getP s2 t p = some pd2)
    (hsame : scrubSecrets pd1 = scrubSecrets pd2) :
    get_tenant_provider s1 t p = get_tenant_provider s2 t p ∧
    ∀ r0, get_tenant_provider s1 t p = Except.ok r0 →
      r0.config.client_secret = none ∧ r0.config.access_token = none ∧
        r0.config.refresh_token = none := by
  constructor
  · simp [get_tenant_provider, h1, h2, hsame]
  · intro r0 hr
    rw [show get_tenant_provider s1 t p = Except.ok ⟨t, p, scrubSecrets pd1⟩ from
          by simp [get_tenant_provider, h1]] at hr
    have hinj := Except.ok.inj hr
    rw [← hinj]
    exact ⟨rfl, rfl, rfl⟩

/-- C10, witness: the acme record and its variant differing only in
client_secret, access_token and refresh_token yield identical
responses, and the scrubbed config carries none of the three secret
fields. -/
theorem c10_witness :
    get_tenant_provider store1 "acme" "goto" =
      get_tenant_provider store1other "acme" "goto" ∧
    (scrubSecrets credT1).client_secret = none ∧
    (scrubSecrets credT1).access_token = none ∧
    (scrubSecrets credT1).refresh_token = none := by
  have h := c10_provider_response_hides_secrets store1 store1other "acme" "goto"
    credT1 credT1other rfl rfl rfl
  have h2 := h.2 ⟨"acme", "goto", scrubSecrets credT1⟩ rfl
  exact ⟨h.1, h2.1, h2.2.1, h2.2.2⟩

end GotoGateway
